import Mathlib

/-!
# notmuch count: a shallow embedding of `notmuch-count.c`

The file embeds `notmuch_count_command` (src/notmuch-count.c, lines 29-91) as a
pure function from the behaviour of the functions it calls to the value it
returns and the ordered list of calls and writes it performs.

* A C pointer is `Option`: `none` is `NULL`, `some h` a valid handle `h`.
* Every function the command calls but does not define is a field of
  `Collaborators`; the command is a function of an arbitrary such record, so a
  theorem quantified over `Collaborators` speaks about every behaviour of the
  argument parser, the configuration loader, the allocator and the index
  engine.
* `Run.trace` records, in program order, each call the command makes and each
  write to standard output / standard error.
-/

namespace NotmuchCount

/-! ## Data model (lines 24-45) -/

/-- Line 25: first enumerator of the anonymous enum. -/
def OUTPUT_THREADS : Int := 0

/-- Line 26: second enumerator of the anonymous enum. -/
def OUTPUT_MESSAGES : Int := 1

/-- The value of a pointer to an object owned by a collaborator. Where a
collaborator returns a pointer, `none` is NULL and `some h` a valid pointer. -/
abbrev Ptr := Nat

/-- Modelled from the spec: the kind tag of an option descriptor. The header
declaring `notmuch_opt_desc_t` is not under src/; the source uses the tag
`NOTMUCH_OPT_KEYWORD` (line 40) and the literal `0` in the terminating row
(line 44), which closes the table. -/
inductive notmuch_opt_type where
  | NOTMUCH_OPT_END
  | NOTMUCH_OPT_KEYWORD
  deriving DecidableEq, Repr

/-- The local variables of `notmuch_count_command` whose address is stored in
the option table (line 40: `&output`). -/
inductive local_var where
  | output
  deriving DecidableEq, Repr

/-- One row of a keyword table, `{ name, value }` (lines 41-43); the row
`{ 0, 0 }` has the NULL name. -/
structure notmuch_keyword_t where
  name : Option String
  value : Int
  deriving DecidableEq, Repr

/-- One row of the option table, in the field order of lines 40-44:
kind, output variable, long name, short name, keyword table. -/
structure notmuch_opt_desc_t where
  opt_type : notmuch_opt_type
  output_var : Option local_var
  name : Option String
  arg_id : Char
  keywords : List notmuch_keyword_t
  deriving DecidableEq, Repr

/-- Lines 41-43: the compound literal holding the keywords of `output`. -/
def output_keywords : List notmuch_keyword_t :=
  [ { name := some "threads", value := OUTPUT_THREADS },
    { name := some "messages", value := OUTPUT_MESSAGES },
    { name := none, value := 0 } ]

/-- Lines 39-45: the option table of the command. -/
def options : List notmuch_opt_desc_t :=
  [ { opt_type := .NOTMUCH_OPT_KEYWORD, output_var := some .output,
      name := some "output", arg_id := 'o', keywords := output_keywords },
    { opt_type := .NOTMUCH_OPT_END, output_var := none,
      name := none, arg_id := Char.ofNat 0, keywords := [] } ]

/-- Modelled from the spec: the open modes of the index store. The header
declaring them is not under src/; the source names
`NOTMUCH_DATABASE_MODE_READ_ONLY` (line 58) and the spec contrasts read-only
access with mutation of the index. -/
inductive notmuch_database_mode_t where
  | NOTMUCH_DATABASE_MODE_READ_ONLY
  | NOTMUCH_DATABASE_MODE_READ_WRITE
  deriving DecidableEq, Repr

/-! ## Collaborators -/

/-- What a call of `parse_arguments` leaves behind: the returned index and the
value it stored through the `output_var` pointer of the table (`none` when it
stored nothing there). -/
structure parse_result where
  ret : Int
  stored : Option Int
  deriving DecidableEq, Repr

/-- The functions `notmuch_count_command` calls and does not define. Each is
called at most once per run, so a function of the arguments describes every
behaviour it can show to the command. -/
structure Collaborators where
  parse_arguments : Int → List String → List notmuch_opt_desc_t → Int → parse_result
  notmuch_config_open : Ptr → Option String → Option Ptr → Option Ptr
  notmuch_config_get_database_path : Ptr → Option String
  notmuch_database_open : Option String → notmuch_database_mode_t → Option Ptr
  query_string_from_args : Ptr → Int → List String → Option String
  talloc_strdup : Ptr → String → Option String
  notmuch_query_create : Ptr → Option String → Option Ptr
  notmuch_query_count_messages : Ptr → Nat
  notmuch_query_count_threads : Ptr → Nat

/-- One observable step of the command: a call of a collaborator (with the
arguments passed) or a write to one of the two output streams. -/
inductive Event where
  | parse_arguments (argc : Int) (argv : List String)
      (options : List notmuch_opt_desc_t) (opt_index : Int)
  | notmuch_config_open (ctx : Ptr) (filename : Option String) (is_new : Option Ptr)
  | notmuch_config_get_database_path (config : Ptr)
  | notmuch_database_open (path : Option String) (mode : notmuch_database_mode_t)
  | query_string_from_args (ctx : Ptr) (argc : Int) (argv : List String)
  | talloc_strdup (ctx : Ptr) (s : String)
  | notmuch_query_create (notmuch : Ptr) (query_string : Option String)
  | notmuch_query_count_messages (query : Ptr)
  | notmuch_query_count_threads (query : Ptr)
  | notmuch_query_destroy (query : Ptr)
  | notmuch_database_close (notmuch : Ptr)
  | printf (text : String)
  | fprintf_stderr (text : String)
  deriving DecidableEq, Repr

/-- The outcome of one run: the returned value and the steps performed. -/
structure Run where
  ret : Int
  trace : List Event
  deriving DecidableEq, Repr

/-! ## The command (lines 29-91) -/

/-- The text `printf ("%u\n", n)` writes: the decimal digits of the unsigned
value and a newline. -/
def format_u_newline (n : Nat) : String := Nat.repr n ++ "\n"

/-- Lines 78-85: the `switch (output)` with its two cases and no default. -/
def count_switch (E : Collaborators) (output : Int) (query : Ptr) : List Event :=
  if output = OUTPUT_MESSAGES then
    [ .notmuch_query_count_messages query,
      .printf (format_u_newline (E.notmuch_query_count_messages query)) ]
  else if output = OUTPUT_THREADS then
    [ .notmuch_query_count_threads query,
      .printf (format_u_newline (E.notmuch_query_count_threads query)) ]
  else
    []

/-- Lines 29-91: `notmuch_count_command (ctx, argc, argv)`. -/
def notmuch_count_command (E : Collaborators) (ctx : Ptr) (argc : Int)
    (argv : List String) : Run :=
  -- line 37: int output = OUTPUT_MESSAGES; line 47: the parser may overwrite it
  let p := E.parse_arguments argc argv options 1
  let opt_index := p.ret
  let output := p.stored.getD OUTPUT_MESSAGES
  let t1 := [Event.parse_arguments argc argv options 1]
  if opt_index < 0 then
    { ret := 1, trace := t1 }
  else
    let t2 := t1 ++ [Event.notmuch_config_open ctx none none]
    match E.notmuch_config_open ctx none none with
    | none => { ret := 1, trace := t2 }
    | some config =>
      let path := E.notmuch_config_get_database_path config
      let t3 := t2 ++ [Event.notmuch_config_get_database_path config,
        Event.notmuch_database_open path .NOTMUCH_DATABASE_MODE_READ_ONLY]
      match E.notmuch_database_open path .NOTMUCH_DATABASE_MODE_READ_ONLY with
      | none => { ret := 1, trace := t3 }
      | some notmuch =>
        let rest := argv.drop opt_index.toNat
        let t4 := t3 ++ [Event.query_string_from_args ctx (argc - opt_index) rest]
        match E.query_string_from_args ctx (argc - opt_index) rest with
        | none => { ret := 1, trace := t4 ++ [Event.fprintf_stderr "Out of memory.\n"] }
        | some s =>
          -- lines 68-70: an empty string is replaced by a fresh copy of ""
          let query_str := if s = "" then E.talloc_strdup ctx "" else some s
          let t5 := if s = "" then t4 ++ [Event.talloc_strdup ctx ""] else t4
          let t6 := t5 ++ [Event.notmuch_query_create notmuch query_str]
          match E.notmuch_query_create notmuch query_str with
          | none => { ret := 1, trace := t6 ++ [Event.fprintf_stderr "Out of memory\n"] }
          | some query =>
            { ret := 0,
              trace := t6 ++ count_switch E output query ++
                [Event.notmuch_query_destroy query, Event.notmuch_database_close notmuch] }

/-! ## Observations on a run -/

/-- The text of a write to standard output, if the step is one. -/
def Event.stdout_text : Event → Option String
  | .printf s => some s
  | _ => none

/-- The text of a write to standard error, if the step is one. -/
def Event.stderr_text : Event → Option String
  | .fprintf_stderr s => some s
  | _ => none

/-- The writes to standard output, in order. -/
def Run.stdout_writes (r : Run) : List String := r.trace.filterMap Event.stdout_text

/-- Everything the run wrote to standard output. -/
def Run.stdout (r : Run) : String := String.join r.stdout_writes

/-- The writes to standard error, in order. -/
def Run.stderr_writes (r : Run) : List String := r.trace.filterMap Event.stderr_text

/-- Is the step a call of `notmuch_query_count_messages`? -/
def Event.is_count_messages : Event → Bool
  | .notmuch_query_count_messages _ => true
  | _ => false

/-- Is the step a call of `notmuch_query_count_threads`? -/
def Event.is_count_threads : Event → Bool
  | .notmuch_query_count_threads _ => true
  | _ => false

/-- Is the step a call of `notmuch_database_open`? -/
def Event.is_database_open : Event → Bool
  | .notmuch_database_open _ _ => true
  | _ => false

/-- Is the step a call of `notmuch_database_close`? -/
def Event.is_database_close : Event → Bool
  | .notmuch_database_close _ => true
  | _ => false

/-- Does the step touch the store or the configuration, build the query, or
count: anything beyond the argument parser? -/
def Event.is_after_parsing : Event → Bool
  | .parse_arguments _ _ _ _ => false
  | _ => true

/-- Is the step an operation of the index engine (`notmuch_*` on a store or a
query)? -/
def Event.is_engine_op : Event → Bool
  | .notmuch_database_open _ _ => true
  | .notmuch_query_create _ _ => true
  | .notmuch_query_count_messages _ => true
  | .notmuch_query_count_threads _ => true
  | .notmuch_query_destroy _ => true
  | .notmuch_database_close _ => true
  | _ => false

/-- The engine operations that only read the index: a read-only open, query
creation, the two counts, query destruction and close. -/
def Event.is_read_only_op : Event → Bool
  | .notmuch_database_open _ .NOTMUCH_DATABASE_MODE_READ_ONLY => true
  | .notmuch_query_create _ _ => true
  | .notmuch_query_count_messages _ => true
  | .notmuch_query_count_threads _ => true
  | .notmuch_query_destroy _ => true
  | .notmuch_database_close _ => true
  | _ => false

/-- Does the step leave the index as it is: it is no engine operation, or it is
one of the read-only ones? -/
def Event.leaves_index (e : Event) : Bool := !e.is_engine_op || e.is_read_only_op

/-- A sample index state: the number of engine operations so far that were not
read-only ones. -/
def mutation_counter (e : Event) (s : Nat) : Nat := if e.leaves_index then s else s + 1

/-! ## The ways through the command -/

/-- The string handed to `notmuch_query_create` when the query builder returned
`s` (lines 68-72). -/
def query_str_of (E : Collaborators) (ctx : Ptr) (s : String) : Option String :=
  if s = "" then E.talloc_strdup ctx "" else some s

/-- The steps shared by every run that gets past a successful store open and a
successful query builder, up to and including the call of
`notmuch_query_create`. -/
def steps_to_query_create (E : Collaborators) (ctx : Ptr) (argc : Int) (argv : List String)
    (config notmuch : Ptr) (s : String) : List Event :=
  [ Event.parse_arguments argc argv options 1,
    Event.notmuch_config_open ctx none none,
    Event.notmuch_config_get_database_path config,
    Event.notmuch_database_open (E.notmuch_config_get_database_path config)
      .NOTMUCH_DATABASE_MODE_READ_ONLY,
    Event.query_string_from_args ctx (argc - (E.parse_arguments argc argv options 1).ret)
      (argv.drop (E.parse_arguments argc argv options 1).ret.toNat) ] ++
  (if s = "" then [Event.talloc_strdup ctx ""] else []) ++
  [ Event.notmuch_query_create notmuch (query_str_of E ctx s) ]

/-- Is the step a call of one of the two counting operations? -/
def Event.is_count (e : Event) : Bool := e.is_count_messages || e.is_count_threads

/-- The six ways through `notmuch_count_command`, one per `return`: which
collaborator results select the way, and the run it produces. -/
inductive Path (E : Collaborators) (ctx : Ptr) (argc : Int) (argv : List String) : Run → Prop
  | parse_error (h : (E.parse_arguments argc argv options 1).ret < 0) :
      Path E ctx argc argv { ret := 1, trace := [Event.parse_arguments argc argv options 1] }
  | config_error (h : 0 ≤ (E.parse_arguments argc argv options 1).ret)
      (hc : E.notmuch_config_open ctx none none = none) :
      Path E ctx argc argv { ret := 1, trace := [Event.parse_arguments argc argv options 1,
        Event.notmuch_config_open ctx none none] }
  | open_error (config : Ptr) (h : 0 ≤ (E.parse_arguments argc argv options 1).ret)
      (hc : E.notmuch_config_open ctx none none = some config)
      (ho : E.notmuch_database_open (E.notmuch_config_get_database_path config)
        .NOTMUCH_DATABASE_MODE_READ_ONLY = none) :
      Path E ctx argc argv { ret := 1, trace := [Event.parse_arguments argc argv options 1,
        Event.notmuch_config_open ctx none none,
        Event.notmuch_config_get_database_path config,
        Event.notmuch_database_open (E.notmuch_config_get_database_path config)
          .NOTMUCH_DATABASE_MODE_READ_ONLY] }
  | query_string_error (config notmuch : Ptr)
      (h : 0 ≤ (E.parse_arguments argc argv options 1).ret)
      (hc : E.notmuch_config_open ctx none none = some config)
      (ho : E.notmuch_database_open (E.notmuch_config_get_database_path config)
        .NOTMUCH_DATABASE_MODE_READ_ONLY = some notmuch)
      (hs : E.query_string_from_args ctx (argc - (E.parse_arguments argc argv options 1).ret)
        (argv.drop (E.parse_arguments argc argv options 1).ret.toNat) = none) :
      Path E ctx argc argv { ret := 1, trace := [Event.parse_arguments argc argv options 1,
        Event.notmuch_config_open ctx none none,
        Event.notmuch_config_get_database_path config,
        Event.notmuch_database_open (E.notmuch_config_get_database_path config)
          .NOTMUCH_DATABASE_MODE_READ_ONLY,
        Event.query_string_from_args ctx
          (argc - (E.parse_arguments argc argv options 1).ret)
          (argv.drop (E.parse_arguments argc argv options 1).ret.toNat),
        Event.fprintf_stderr "Out of memory.\n"] }
  | query_create_error (config notmuch : Ptr) (s : String)
      (h : 0 ≤ (E.parse_arguments argc argv options 1).ret)
      (hc : E.notmuch_config_open ctx none none = some config)
      (ho : E.notmuch_database_open (E.notmuch_config_get_database_path config)
        .NOTMUCH_DATABASE_MODE_READ_ONLY = some notmuch)
      (hs : E.query_string_from_args ctx (argc - (E.parse_arguments argc argv options 1).ret)
        (argv.drop (E.parse_arguments argc argv options 1).ret.toNat) = some s)
      (hq : E.notmuch_query_create notmuch (query_str_of E ctx s) = none) :
      Path E ctx argc argv
        ⟨1, steps_to_query_create E ctx argc argv config notmuch s ++
          [Event.fprintf_stderr "Out of memory\n"]⟩
  | success (config notmuch : Ptr) (s : String) (query : Ptr)
      (h : 0 ≤ (E.parse_arguments argc argv options 1).ret)
      (hc : E.notmuch_config_open ctx none none = some config)
      (ho : E.notmuch_database_open (E.notmuch_config_get_database_path config)
        .NOTMUCH_DATABASE_MODE_READ_ONLY = some notmuch)
      (hs : E.query_string_from_args ctx (argc - (E.parse_arguments argc argv options 1).ret)
        (argv.drop (E.parse_arguments argc argv options 1).ret.toNat) = some s)
      (hq : E.notmuch_query_create notmuch (query_str_of E ctx s) = some query) :
      Path E ctx argc argv
        ⟨0, steps_to_query_create E ctx argc argv config notmuch s ++
          count_switch E ((E.parse_arguments argc argv options 1).stored.getD OUTPUT_MESSAGES)
            query ++
          [Event.notmuch_query_destroy query, Event.notmuch_database_close notmuch]⟩

/-- The five tests the command makes on the results of its calls all pass:
`parse_arguments` returned a non-negative index (line 49), `notmuch_config_open`
a configuration (line 54), `notmuch_database_open` a store (line 59),
`query_string_from_args` a non-NULL string (line 63) and `notmuch_query_create` a
query (line 73). The copy made at line 69 is not among them: the command never
tests its result. -/
def checked_steps_pass (E : Collaborators) (ctx : Ptr) (argc : Int) (argv : List String) :
    Prop :=
  0 ≤ (E.parse_arguments argc argv options 1).ret ∧
  ∃ config, E.notmuch_config_open ctx none none = some config ∧
  ∃ notmuch, E.notmuch_database_open (E.notmuch_config_get_database_path config)
      .NOTMUCH_DATABASE_MODE_READ_ONLY = some notmuch ∧
  ∃ s, E.query_string_from_args ctx (argc - (E.parse_arguments argc argv options 1).ret)
      (argv.drop (E.parse_arguments argc argv options 1).ret.toNat) = some s ∧
  ∃ query, E.notmuch_query_create notmuch (query_str_of E ctx s) = some query

/-- Every step of the command succeeds: argument parsing (a non-negative
index), configuration loading, opening the store, building the query string
and creating the query. Building the query string is lines 62-70 as a whole:
`query_string_from_args` returns a string and, where that string is empty and
line 69 re-creates it, `talloc_strdup` returns a string too; the query is then
created from that string. -/
def all_steps_succeed (E : Collaborators) (ctx : Ptr) (argc : Int) (argv : List String) :
    Prop :=
  0 ≤ (E.parse_arguments argc argv options 1).ret ∧
  ∃ config, E.notmuch_config_open ctx none none = some config ∧
  ∃ notmuch, E.notmuch_database_open (E.notmuch_config_get_database_path config)
      .NOTMUCH_DATABASE_MODE_READ_ONLY = some notmuch ∧
  ∃ s, E.query_string_from_args ctx (argc - (E.parse_arguments argc argv options 1).ret)
      (argv.drop (E.parse_arguments argc argv options 1).ret.toNat) = some s ∧
  ∃ query_str, (if s = "" then E.talloc_strdup ctx "" else some s) = some query_str ∧
  ∃ query, E.notmuch_query_create notmuch (some query_str) = some query

/-! ## The collaborators the spec describes

`parse_arguments` and `query_string_from_args` belong to this repository but
their code is not under src/. The definitions below follow the spec's
description of them; the command itself never depends on them (it takes its
collaborators as a parameter), they serve to state what the spec promises about
the parser and to run the command on concrete argument lists. -/

/-- Modelled from the spec: the keyword lookup of the Argument Parser, whose
code (`parse_arguments`) is not under src/. "accepted values are the keywords
`threads` and `messages`, case-sensitive, mapped to OutputMode; any other value
is a parse error": the rows are tried in order up to the row with the NULL
name, a row matches when its name equals the value character for character, and
`none` is the parse error. -/
def keyword_lookup : List notmuch_keyword_t → String → Option Int
  | [], _ => none
  | k :: ks, v =>
    match k.name with
    | none => none
    | some n => if v = n then some k.value else keyword_lookup ks v

/-- The rows of an option table that precede its terminating row (the row
whose kind is `0`, line 44). -/
def declared_options (t : List notmuch_opt_desc_t) : List notmuch_opt_desc_t :=
  t.takeWhile fun d => decide (d.opt_type ≠ .NOTMUCH_OPT_END)

/-- The rows of a keyword table that precede its terminating row (the row
whose name is NULL, line 43). -/
def declared_keywords (t : List notmuch_keyword_t) : List notmuch_keyword_t :=
  t.takeWhile fun k => k.name.isSome

/-- Modelled from the spec: the contract of the Argument Parser on the variable
behind `output_var`, for a parser whose code is not under src/. "accepted
values are the keywords ..., mapped to OutputMode; any other value is a parse
error": whatever the parser stores is the value the keyword table of a declared
option gives to some keyword. -/
def stores_keyword_value (t : List notmuch_opt_desc_t) (p : parse_result) : Prop :=
  ∀ v, p.stored = some v →
    ∃ d ∈ declared_options t, d.output_var = some .output ∧
      ∃ word, keyword_lookup d.keywords word = some v

/-- Modelled from the spec: the value an option token carries for a table row,
for a parser whose code is not under src/. The spec names the option
`-o`/`--output` and writes its use as `--output=(threads|messages)`; the model
reads both spellings as the spelling, `=`, and the value. `none` when the token
does not spell this option. -/
def option_value (d : notmuch_opt_desc_t) (tok : String) : Option String :=
  match d.name with
  | none => none
  | some n =>
    let long := ("--" ++ n ++ "=").toList
    let short := ['-', d.arg_id, '=']
    if long.isPrefixOf tok.toList then some (String.mk (tok.toList.drop long.length))
    else if short.isPrefixOf tok.toList then some (String.mk (tok.toList.drop short.length))
    else none

/-- Modelled from the spec: the parse of one option token against the table,
for a parser whose code is not under src/. The first declared row the token
spells decides: its keyword table maps the value (`some v`, to be stored) or
rejects it; a token spelling no declared option is an "unknown option". `none`
is the parse error. -/
def parse_option : List notmuch_opt_desc_t → String → Option Int
  | [], _ => none
  | d :: ds, tok =>
    if d.opt_type = .NOTMUCH_OPT_END then none
    else
      match option_value d tok with
      | some v => if d.output_var = some .output then keyword_lookup d.keywords v else none
      | none => parse_option ds tok

/-- Modelled from the spec: the scan of the Argument Parser over the tokens
from the current index on. "All arguments preceding the first unrecognized
token (or end of input) are treated as options; option parsing is permitted to
stop at the first non-option token": a token that does not start with `-` ends
the scan, and the index of that token is returned; an option token that fails
to parse yields the negative result. -/
def parse_arguments_from (t : List notmuch_opt_desc_t) :
    List String → Int → Option Int → parse_result
  | [], i, st => { ret := i, stored := st }
  | tok :: rest, i, st =>
    if tok.toList.head? = some '-' then
      match parse_option t tok with
      | some v => parse_arguments_from t rest (i + 1) (some v)
      | none => { ret := -1, stored := st }
    else { ret := i, stored := st }

/-- Modelled from the spec: `parse_arguments (argc, argv, options, opt_index)`,
whose code is not under src/: the scan of `argv[opt_index .. argc)`. "Returns
the index of the first non-option argument so the caller can extract the
positional remainder." -/
def parse_arguments (argc : Int) (argv : List String) (t : List notmuch_opt_desc_t)
    (opt_index : Int) : parse_result :=
  parse_arguments_from t ((argv.take argc.toNat).drop opt_index.toNat) opt_index none

/-- Modelled from the spec: the Query Builder `query_string_from_args`, whose
code is not under src/, when no allocation fails. "Joins the given tokens with
a single space; zero tokens yields the empty string." -/
def query_string_from_args (argc : Int) (argv : List String) : String :=
  " ".intercalate (argv.take argc.toNat)

/-- A world in which nothing fails: the parser and the query builder are the
ones the spec describes, the configuration names one store path, the store at
that path opens, the engine returns a query for whatever string pointer it is
handed, and every query has `messages` matching messages in `threads`
threads. -/
def healthy (messages threads : Nat) : Collaborators where
  parse_arguments := parse_arguments
  notmuch_config_open := fun _ _ _ => some 1
  notmuch_config_get_database_path := fun _ => some "/home/user/mail"
  notmuch_database_open := fun path _ => if path = some "/home/user/mail" then some 2 else none
  query_string_from_args := fun _ argc argv => some (query_string_from_args argc argv)
  talloc_strdup := fun _ s => some s
  notmuch_query_create := fun _ _ => some 3
  notmuch_query_count_messages := fun _ => messages
  notmuch_query_count_threads := fun _ => threads

/-- The healthy world, except that `query_string_from_args` runs out of memory
and returns NULL. -/
def no_memory_for_query_string (messages threads : Nat) : Collaborators :=
  { healthy messages threads with query_string_from_args := fun _ _ _ => none }

/-- The healthy world, except that `talloc_strdup` runs out of memory and
returns NULL. -/
def no_memory_for_strdup (messages threads : Nat) : Collaborators :=
  { healthy messages threads with talloc_strdup := fun _ _ => none }

/-- The healthy world, except that `notmuch_query_create` runs out of memory
and returns NULL. -/
def no_memory_for_query (messages threads : Nat) : Collaborators :=
  { healthy messages threads with notmuch_query_create := fun _ _ => none }

/-- The healthy world, except that the configured store cannot be opened. -/
def no_store (messages threads : Nat) : Collaborators :=
  { healthy messages threads with notmuch_database_open := fun _ _ => none }

/-! ## The exit paths of the command -/


theorem run_parse_error (E : Collaborators) (ctx : Ptr) (argc : Int) (argv : List String)
    (h : (E.parse_arguments argc argv options 1).ret < 0) :
    notmuch_count_command E ctx argc argv =
      { ret := 1, trace := [Event.parse_arguments argc argv options 1] } := by
  simp [notmuch_count_command, h]

theorem run_config_error (E : Collaborators) (ctx : Ptr) (argc : Int) (argv : List String)
    (h : 0 ≤ (E.parse_arguments argc argv options 1).ret)
    (hc : E.notmuch_config_open ctx none none = none) :
    notmuch_count_command E ctx argc argv =
      { ret := 1, trace := [Event.parse_arguments argc argv options 1,
          Event.notmuch_config_open ctx none none] } := by
  simp [notmuch_count_command, not_lt.mpr h, hc]

theorem run_open_error (E : Collaborators) (ctx : Ptr) (argc : Int) (argv : List String)
    {config : Ptr} (h : 0 ≤ (E.parse_arguments argc argv options 1).ret)
    (hc : E.notmuch_config_open ctx none none = some config)
    (ho : E.notmuch_database_open (E.notmuch_config_get_database_path config)
      .NOTMUCH_DATABASE_MODE_READ_ONLY = none) :
    notmuch_count_command E ctx argc argv =
      { ret := 1, trace := [Event.parse_arguments argc argv options 1,
          Event.notmuch_config_open ctx none none,
          Event.notmuch_config_get_database_path config,
          Event.notmuch_database_open (E.notmuch_config_get_database_path config)
            .NOTMUCH_DATABASE_MODE_READ_ONLY] } := by
  simp [notmuch_count_command, not_lt.mpr h, hc, ho]

theorem run_query_string_error (E : Collaborators) (ctx : Ptr) (argc : Int) (argv : List String)
    {config notmuch : Ptr}
    (h : 0 ≤ (E.parse_arguments argc argv options 1).ret)
    (hc : E.notmuch_config_open ctx none none = some config)
    (ho : E.notmuch_database_open (E.notmuch_config_get_database_path config)
      .NOTMUCH_DATABASE_MODE_READ_ONLY = some notmuch)
    (hs : E.query_string_from_args ctx (argc - (E.parse_arguments argc argv options 1).ret)
      (argv.drop (E.parse_arguments argc argv options 1).ret.toNat) = none) :
    notmuch_count_command E ctx argc argv =
      { ret := 1, trace := [Event.parse_arguments argc argv options 1,
          Event.notmuch_config_open ctx none none,
          Event.notmuch_config_get_database_path config,
          Event.notmuch_database_open (E.notmuch_config_get_database_path config)
            .NOTMUCH_DATABASE_MODE_READ_ONLY,
          Event.query_string_from_args ctx
            (argc - (E.parse_arguments argc argv options 1).ret)
            (argv.drop (E.parse_arguments argc argv options 1).ret.toNat),
          Event.fprintf_stderr "Out of memory.\n"] } := by
  simp [notmuch_count_command, not_lt.mpr h, hc, ho, hs]

theorem run_query_create_error (E : Collaborators) (ctx : Ptr) (argc : Int) (argv : List String)
    {config notmuch : Ptr} {s : String}
    (h : 0 ≤ (E.parse_arguments argc argv options 1).ret)
    (hc : E.notmuch_config_open ctx none none = some config)
    (ho : E.notmuch_database_open (E.notmuch_config_get_database_path config)
      .NOTMUCH_DATABASE_MODE_READ_ONLY = some notmuch)
    (hs : E.query_string_from_args ctx (argc - (E.parse_arguments argc argv options 1).ret)
      (argv.drop (E.parse_arguments argc argv options 1).ret.toNat) = some s)
    (hq : E.notmuch_query_create notmuch (query_str_of E ctx s) = none) :
    notmuch_count_command E ctx argc argv =
      { ret := 1, trace := steps_to_query_create E ctx argc argv config notmuch s ++
          [Event.fprintf_stderr "Out of memory\n"] } := by
  unfold query_str_of at hq
  by_cases hs0 : s = "" <;>
    simp_all [notmuch_count_command, not_lt.mpr h, steps_to_query_create, query_str_of]

theorem run_success (E : Collaborators) (ctx : Ptr) (argc : Int) (argv : List String)
    {config notmuch query : Ptr} {s : String}
    (h : 0 ≤ (E.parse_arguments argc argv options 1).ret)
    (hc : E.notmuch_config_open ctx none none = some config)
    (ho : E.notmuch_database_open (E.notmuch_config_get_database_path config)
      .NOTMUCH_DATABASE_MODE_READ_ONLY = some notmuch)
    (hs : E.query_string_from_args ctx (argc - (E.parse_arguments argc argv options 1).ret)
      (argv.drop (E.parse_arguments argc argv options 1).ret.toNat) = some s)
    (hq : E.notmuch_query_create notmuch (query_str_of E ctx s) = some query) :
    notmuch_count_command E ctx argc argv =
      { ret := 0, trace := steps_to_query_create E ctx argc argv config notmuch s ++
          count_switch E ((E.parse_arguments argc argv options 1).stored.getD OUTPUT_MESSAGES)
            query ++
          [Event.notmuch_query_destroy query, Event.notmuch_database_close notmuch] } := by
  unfold query_str_of at hq
  by_cases hs0 : s = "" <;>
    simp_all [notmuch_count_command, not_lt.mpr h, steps_to_query_create, query_str_of]

theorem run_path (E : Collaborators) (ctx : Ptr) (argc : Int) (argv : List String) :
    Path E ctx argc argv (notmuch_count_command E ctx argc argv) := by
  by_cases h : (E.parse_arguments argc argv options 1).ret < 0
  · rw [run_parse_error E ctx argc argv h]; exact .parse_error h
  · have h0 := not_lt.mp h
    cases hc : E.notmuch_config_open ctx none none with
    | none => rw [run_config_error E ctx argc argv h0 hc]; exact .config_error h0 hc
    | some config =>
      cases ho : E.notmuch_database_open (E.notmuch_config_get_database_path config)
          .NOTMUCH_DATABASE_MODE_READ_ONLY with
      | none => rw [run_open_error E ctx argc argv h0 hc ho]; exact .open_error config h0 hc ho
      | some notmuch =>
        cases hs : E.query_string_from_args ctx
            (argc - (E.parse_arguments argc argv options 1).ret)
            (argv.drop (E.parse_arguments argc argv options 1).ret.toNat) with
        | none =>
          rw [run_query_string_error E ctx argc argv h0 hc ho hs]
          exact .query_string_error config notmuch h0 hc ho hs
        | some s =>
          cases hq : E.notmuch_query_create notmuch (query_str_of E ctx s) with
          | none =>
            rw [run_query_create_error E ctx argc argv h0 hc ho hs hq]
            exact .query_create_error config notmuch s h0 hc ho hs hq
          | some query =>
            rw [run_success E ctx argc argv h0 hc ho hs hq]
            exact .success config notmuch s query h0 hc ho hs hq

/-! ## Observations on the common prefix and on the switch -/

theorem stdout_steps (E : Collaborators) (ctx : Ptr) (argc : Int) (argv : List String)
    (config notmuch : Ptr) (s : String) :
    (steps_to_query_create E ctx argc argv config notmuch s).filterMap Event.stdout_text = [] := by
  unfold steps_to_query_create
  by_cases hs : s = "" <;> simp [hs, Event.stdout_text]

theorem stderr_steps (E : Collaborators) (ctx : Ptr) (argc : Int) (argv : List String)
    (config notmuch : Ptr) (s : String) :
    (steps_to_query_create E ctx argc argv config notmuch s).filterMap Event.stderr_text = [] := by
  unfold steps_to_query_create
  by_cases hs : s = "" <;> simp [hs, Event.stderr_text]

theorem count_steps (E : Collaborators) (ctx : Ptr) (argc : Int) (argv : List String)
    (config notmuch : Ptr) (s : String) :
    (steps_to_query_create E ctx argc argv config notmuch s).filter Event.is_count = [] := by
  unfold steps_to_query_create
  by_cases hs : s = "" <;>
    simp [hs, Event.is_count, Event.is_count_messages, Event.is_count_threads]

theorem count_switch_messages (E : Collaborators) (query : Ptr) :
    count_switch E OUTPUT_MESSAGES query =
      [ Event.notmuch_query_count_messages query,
        Event.printf (format_u_newline (E.notmuch_query_count_messages query)) ] := by
  simp [count_switch]

theorem count_switch_threads (E : Collaborators) (query : Ptr) :
    count_switch E OUTPUT_THREADS query =
      [ Event.notmuch_query_count_threads query,
        Event.printf (format_u_newline (E.notmuch_query_count_threads query)) ] := by
  simp [count_switch, OUTPUT_THREADS, OUTPUT_MESSAGES]

theorem string_join_singleton (s : String) : String.join [s] = s := by
  simp [String.join]

/-- C1: whenever argument parsing, configuration loading, store opening,
query-string construction and query creation all succeed, a run whose output
mode is Messages writes to standard output the decimal rendering of
`notmuch_query_count_messages` of the compiled query followed by a newline, a
run whose mode is Threads writes that of `notmuch_query_count_threads` of the
same query, and in either case the counting calls of the run are exactly that
one call, made once. -/
theorem C1_prints_the_requested_count (E : Collaborators) (ctx : Ptr) (argc : Int)
    (argv : List String) (config notmuch query : Ptr) (s : String)
    (hparse : 0 ≤ (E.parse_arguments argc argv options 1).ret)
    (hconfig : E.notmuch_config_open ctx none none = some config)
    (hopen : E.notmuch_database_open (E.notmuch_config_get_database_path config)
      .NOTMUCH_DATABASE_MODE_READ_ONLY = some notmuch)
    (hstring : E.query_string_from_args ctx
      (argc - (E.parse_arguments argc argv options 1).ret)
      (argv.drop (E.parse_arguments argc argv options 1).ret.toNat) = some s)
    (hquery : E.notmuch_query_create notmuch
      (if s = "" then E.talloc_strdup ctx "" else some s) = some query) :
    ((E.parse_arguments argc argv options 1).stored.getD OUTPUT_MESSAGES = OUTPUT_MESSAGES →
      (notmuch_count_command E ctx argc argv).stdout =
          Nat.repr (E.notmuch_query_count_messages query) ++ "\n" ∧
        (notmuch_count_command E ctx argc argv).trace.filter Event.is_count =
          [Event.notmuch_query_count_messages query]) ∧
    ((E.parse_arguments argc argv options 1).stored.getD OUTPUT_MESSAGES = OUTPUT_THREADS →
      (notmuch_count_command E ctx argc argv).stdout =
          Nat.repr (E.notmuch_query_count_threads query) ++ "\n" ∧
        (notmuch_count_command E ctx argc argv).trace.filter Event.is_count =
          [Event.notmuch_query_count_threads query]) := by
  rw [run_success E ctx argc argv hparse hconfig hopen hstring hquery]
  constructor
  · intro hm
    rw [hm, count_switch_messages]
    simp [Run.stdout, Run.stdout_writes, stdout_steps, count_steps,
      Event.stdout_text, Event.is_count, Event.is_count_messages, Event.is_count_threads,
      string_join_singleton, format_u_newline]
  · intro ht
    rw [ht, count_switch_threads]
    simp [Run.stdout, Run.stdout_writes, stdout_steps, count_steps,
      Event.stdout_text, Event.is_count, Event.is_count_messages, Event.is_count_threads,
      string_join_singleton, format_u_newline]

/-- C1 at a concrete run: `count --output=threads tag:inbox` in a world with 5
matching messages in 2 threads prints `2`, `count --output=messages tag:inbox`
would print the message count. -/
theorem C1_prints_the_requested_count_witness :
    (notmuch_count_command (healthy 5 2) 0 3 ["count", "--output=threads", "tag:inbox"]).stdout
        = "2\n" ∧
      (notmuch_count_command (healthy 5 2) 0 3
          ["count", "--output=threads", "tag:inbox"]).trace.filter Event.is_count
        = [Event.notmuch_query_count_threads 3] := by
  have h := (C1_prints_the_requested_count (healthy 5 2) 0 3
    ["count", "--output=threads", "tag:inbox"] 1 2 3 "tag:inbox"
    (by decide) (by decide) (by decide) (by decide) (by decide)).2 (by decide)
  exact h

/-- The return value is 0 exactly when the five tests of lines 49, 54, 59, 63
and 73 pass, and 1 otherwise; no other value is returned. -/
theorem returns_zero_iff_checked_steps_pass (E : Collaborators) (ctx : Ptr) (argc : Int)
    (argv : List String) :
    ((notmuch_count_command E ctx argc argv).ret = 0 ↔ checked_steps_pass E ctx argc argv) ∧
    (¬ checked_steps_pass E ctx argc argv → (notmuch_count_command E ctx argc argv).ret = 1) ∧
    ((notmuch_count_command E ctx argc argv).ret = 0 ∨
      (notmuch_count_command E ctx argc argv).ret = 1) := by
  have hp := run_path E ctx argc argv
  generalize notmuch_count_command E ctx argc argv = r at hp ⊢
  cases hp with
  | parse_error h => simp [checked_steps_pass, not_le.mpr h]
  | config_error h hc => simp [checked_steps_pass, hc]
  | open_error config h hc ho => simp [checked_steps_pass, hc, ho]
  | query_string_error config notmuch h hc ho hs => simp [checked_steps_pass, hc, ho, hs]
  | query_create_error config notmuch s h hc ho hs hq =>
    simp [checked_steps_pass, hc, ho, hs, hq]
  | success config notmuch s query h hc ho hs hq =>
    simp [checked_steps_pass, hc, ho, hs, hq, h]

/-- When every step succeeds, the copy of line 69 included, the command
returns 0. -/
theorem returns_zero_of_all_steps_succeed (E : Collaborators) (ctx : Ptr) (argc : Int)
    (argv : List String) (h : all_steps_succeed E ctx argc argv) :
    (notmuch_count_command E ctx argc argv).ret = 0 := by
  obtain ⟨hparse, config, hc, notmuch, ho, s, hs, query_str, hstr, query, hq⟩ := h
  have hq2 : E.notmuch_query_create notmuch (query_str_of E ctx s) = some query := by
    unfold query_str_of
    rw [hstr]
    exact hq
  rw [run_success E ctx argc argv hparse hc ho hs hq2]

/-- C2 (the code departs from the claim): in `count` without search terms the
query builder returns the empty string and the `talloc_strdup` of line 69
returns NULL, so building the query string fails and not all steps succeed;
the command, which never tests that result, returns 0 when the engine returns
a query for the NULL string. -/
theorem C2_returns_zero_though_query_string_failed :
    (no_memory_for_strdup 5 2).query_string_from_args 0
      (1 - ((no_memory_for_strdup 5 2).parse_arguments 1 ["count"] options 1).ret)
      (["count"].drop
        ((no_memory_for_strdup 5 2).parse_arguments 1 ["count"] options 1).ret.toNat)
      = some "" ∧
    (no_memory_for_strdup 5 2).talloc_strdup 0 "" = none ∧
    ¬ all_steps_succeed (no_memory_for_strdup 5 2) 0 1 ["count"] ∧
    (notmuch_count_command (no_memory_for_strdup 5 2) 0 1 ["count"]).ret = 0 := by
  refine ⟨by decide, by decide, ?_, by decide⟩
  rintro ⟨-, config, -, notmuch, -, s, hs, query_str, hstr, -⟩
  have hs2 : s = "" := by
    have h0 : (no_memory_for_strdup 5 2).query_string_from_args 0
        (1 - ((no_memory_for_strdup 5 2).parse_arguments 1 ["count"] options 1).ret)
        (["count"].drop
          ((no_memory_for_strdup 5 2).parse_arguments 1 ["count"] options 1).ret.toNat)
        = some "" := by decide
    rw [h0] at hs
    exact (Option.some.inj hs).symm
  subst hs2
  simp [no_memory_for_strdup] at hstr

/-! ## The decimal rendering holds no newline -/

theorem keyword_lookup_output_keywords (word : String) (v : Int)
    (h : keyword_lookup output_keywords word = some v) :
    v = OUTPUT_THREADS ∨ v = OUTPUT_MESSAGES := by
  simp only [output_keywords, keyword_lookup] at h
  split_ifs at h <;> simp_all

theorem output_of_stores_keyword_value (p : parse_result)
    (h : stores_keyword_value options p) :
    p.stored.getD OUTPUT_MESSAGES = OUTPUT_MESSAGES ∨
      p.stored.getD OUTPUT_MESSAGES = OUTPUT_THREADS := by
  cases hst : p.stored with
  | none => left; rfl
  | some v =>
    obtain ⟨d, hd, -, word, hw⟩ := h v hst
    have hd3 : d.keywords = output_keywords := by
      simp [declared_options, options] at hd
      simp [hd]
    rw [hd3] at hw
    rcases keyword_lookup_output_keywords word v hw with h1 | h1
    · right; simpa using h1
    · left; simpa using h1

theorem parse_option_keyword (t : List notmuch_opt_desc_t) (tok : String) (v : Int)
    (h : parse_option t tok = some v) :
    ∃ d ∈ declared_options t, d.output_var = some .output ∧
      ∃ word, keyword_lookup d.keywords word = some v := by
  induction t with
  | nil => simp [parse_option] at h
  | cons d ds ih =>
    unfold parse_option at h
    by_cases hend : d.opt_type = .NOTMUCH_OPT_END
    · simp [hend] at h
    · have hne : decide (d.opt_type ≠ .NOTMUCH_OPT_END) = true := by simpa using hend
      rw [if_neg hend] at h
      cases hv : option_value d tok with
      | some word =>
        rw [hv] at h
        by_cases hvar : d.output_var = some .output
        · simp only [hvar, if_true] at h
          exact ⟨d, by simp [declared_options, List.takeWhile_cons, hend], hvar, word, h⟩
        · simp [hvar] at h
      | none =>
        rw [hv] at h
        obtain ⟨d2, hd2, hrest⟩ := ih h
        refine ⟨d2, ?_, hrest⟩
        simp only [declared_options, List.takeWhile_cons, hne, if_true]
        exact List.mem_cons_of_mem _ hd2

theorem parse_arguments_from_keyword (t : List notmuch_opt_desc_t) (toks : List String) :
    ∀ (i : Int) (st : Option Int),
      stores_keyword_value t { ret := 0, stored := st } →
      stores_keyword_value t (parse_arguments_from t toks i st) := by
  induction toks with
  | nil => intro i st h; simpa [parse_arguments_from, stores_keyword_value] using h
  | cons tok rest ih =>
    intro i st h
    unfold parse_arguments_from
    split_ifs
    · cases hp : parse_option t tok with
      | none => simpa [stores_keyword_value] using h
      | some v =>
        simp only
        apply ih
        intro w hw
        simp only [Option.some.injEq] at hw
        subst hw
        exact parse_option_keyword t tok v hp
    · simpa [stores_keyword_value] using h

/-- The parser the spec describes keeps the contract `stores_keyword_value`, for
every table and every argument list. -/
theorem parse_arguments_stores_keyword_value (argc : Int) (argv : List String)
    (t : List notmuch_opt_desc_t) (opt_index : Int) :
    stores_keyword_value t (parse_arguments argc argv t opt_index) := by
  unfold parse_arguments
  apply parse_arguments_from_keyword
  intro v hv
  simp at hv

/-- The switch of lines 78-85 has no default: a mode that is neither of the two
enumerators makes no counting call and writes nothing. -/
theorem count_switch_unlisted_mode (E : Collaborators) (output : Int) (query : Ptr)
    (hm : output ≠ OUTPUT_MESSAGES) (ht : output ≠ OUTPUT_THREADS) :
    count_switch E output query = [] := by
  simp [count_switch, hm, ht]

/-! ## Argument errors and the default mode -/

/-- C5: on every argument list the parser rejects (negative result), the
command returns 1 and its only step is the call of `parse_arguments`: no
configuration load, no store open, no query-string construction, no query
creation, no counting call, and nothing on standard output. -/
theorem C5_parse_error_touches_nothing (E : Collaborators) (ctx : Ptr) (argc : Int)
    (argv : List String) (herr : (E.parse_arguments argc argv options 1).ret < 0) :
    (notmuch_count_command E ctx argc argv).ret = 1 ∧
    (notmuch_count_command E ctx argc argv).trace =
      [Event.parse_arguments argc argv options 1] ∧
    (notmuch_count_command E ctx argc argv).trace.filter Event.is_after_parsing = [] ∧
    (notmuch_count_command E ctx argc argv).stdout_writes = [] ∧
    (notmuch_count_command E ctx argc argv).stdout = "" := by
  rw [run_parse_error E ctx argc argv herr]
  simp [Event.is_after_parsing, Run.stdout, Run.stdout_writes, Event.stdout_text, String.join]

/-- C5 at a concrete run: `count --output=bogus` is rejected by the parser the
spec describes, the command returns 1 and performs no step after parsing. -/
theorem C5_parse_error_touches_nothing_witness :
    ((healthy 5 2).parse_arguments 2 ["count", "--output=bogus"] options 1).ret < 0 ∧
    (notmuch_count_command (healthy 5 2) 0 2 ["count", "--output=bogus"]).ret = 1 ∧
    (notmuch_count_command (healthy 5 2) 0 2 ["count", "--output=bogus"]).trace.filter
      Event.is_after_parsing = [] ∧
    (notmuch_count_command (healthy 5 2) 0 2 ["count", "--output=bogus"]).stdout = "" :=
  have h := C5_parse_error_touches_nothing (healthy 5 2) 0 2 ["count", "--output=bogus"]
    (by decide)
  ⟨by decide, h.1, h.2.2.1, h.2.2.2.2⟩

/-- Under the parser the spec describes, tokens none of which parses as an
option of the table leave the output variable as it was. -/
theorem parse_arguments_from_unwritten (t : List notmuch_opt_desc_t) (toks : List String)
    (hno : ∀ tok ∈ toks, parse_option t tok = none) :
    ∀ (i : Int) (st : Option Int), (parse_arguments_from t toks i st).stored = st := by
  induction toks with
  | nil => intro i st; simp [parse_arguments_from]
  | cons tok rest ih =>
    intro i st
    unfold parse_arguments_from
    have h0 : parse_option t tok = none := hno tok (List.mem_cons_self _ _)
    split_ifs <;> simp [h0]

/-- C6: the mode defaults to Messages. On every run in which the parser leaves
the output variable unwritten and every step succeeds, the command prints the
result of `notmuch_query_count_messages` on the compiled query and never calls
`notmuch_query_count_threads`. -/
theorem C6_default_mode_is_messages (E : Collaborators) (ctx : Ptr) (argc : Int)
    (argv : List String) (config notmuch query : Ptr) (s : String)
    (hunwritten : (E.parse_arguments argc argv options 1).stored = none)
    (hparse : 0 ≤ (E.parse_arguments argc argv options 1).ret)
    (hconfig : E.notmuch_config_open ctx none none = some config)
    (hopen : E.notmuch_database_open (E.notmuch_config_get_database_path config)
      .NOTMUCH_DATABASE_MODE_READ_ONLY = some notmuch)
    (hstring : E.query_string_from_args ctx
      (argc - (E.parse_arguments argc argv options 1).ret)
      (argv.drop (E.parse_arguments argc argv options 1).ret.toNat) = some s)
    (hquery : E.notmuch_query_create notmuch
      (if s = "" then E.talloc_strdup ctx "" else some s) = some query) :
    (notmuch_count_command E ctx argc argv).ret = 0 ∧
    (notmuch_count_command E ctx argc argv).stdout =
      Nat.repr (E.notmuch_query_count_messages query) ++ "\n" ∧
    (notmuch_count_command E ctx argc argv).trace.countP Event.is_count_messages = 1 ∧
    Event.notmuch_query_count_messages query ∈ (notmuch_count_command E ctx argc argv).trace ∧
    (notmuch_count_command E ctx argc argv).trace.countP Event.is_count_threads = 0 := by
  rw [run_success E ctx argc argv hparse hconfig hopen hstring hquery, hunwritten]
  have hc1 : (steps_to_query_create E ctx argc argv config notmuch s).countP
      Event.is_count_messages = 0 := by
    unfold steps_to_query_create
    by_cases hs : s = "" <;> simp [hs, Event.is_count_messages]
  have hc2 : (steps_to_query_create E ctx argc argv config notmuch s).countP
      Event.is_count_threads = 0 := by
    unfold steps_to_query_create
    by_cases hs : s = "" <;> simp [hs, Event.is_count_threads]
  simp [count_switch_messages, Run.stdout, Run.stdout_writes, stdout_steps,
    Event.stdout_text, string_join_singleton, format_u_newline, List.countP_append,
    List.countP_cons, hc1, hc2, Event.is_count_messages, Event.is_count_threads]

/-- C6 at a concrete run: `count tag:inbox` carries no output option, the
parser the spec describes stores nothing, and the message count 5 is printed. -/
theorem C6_default_mode_is_messages_witness :
    ((healthy 5 2).parse_arguments 2 ["count", "tag:inbox"] options 1).stored = none ∧
    (notmuch_count_command (healthy 5 2) 0 2 ["count", "tag:inbox"]).stdout = "5\n" ∧
    (notmuch_count_command (healthy 5 2) 0 2 ["count", "tag:inbox"]).trace.countP
      Event.is_count_threads = 0 :=
  have h := C6_default_mode_is_messages (healthy 5 2) 0 2 ["count", "tag:inbox"] 1 2 3
    "tag:inbox" (by decide) (by decide) (by decide) (by decide) (by decide) (by decide)
  ⟨by decide, h.2.1, h.2.2.2.2⟩

/-! ## The keyword table -/

/-- C7: the keyword table of the one declared option (long name `output`, short
name `o`) maps `threads` to the Threads mode and `messages` to the Messages
mode, case-sensitively, and nothing else: a lookup yields Threads iff the value
is `threads`, Messages iff it is `messages`, and fails (a parse error) for
every other value. The option table declares exactly one option. -/
theorem C7_output_keyword_table :
    (∀ v : String, keyword_lookup output_keywords v = some OUTPUT_THREADS ↔ v = "threads") ∧
    (∀ v : String, keyword_lookup output_keywords v = some OUTPUT_MESSAGES ↔ v = "messages") ∧
    (∀ v : String, keyword_lookup output_keywords v = none ↔
      (v ≠ "threads" ∧ v ≠ "messages")) ∧
    declared_keywords output_keywords =
      [ { name := some "threads", value := OUTPUT_THREADS },
        { name := some "messages", value := OUTPUT_MESSAGES } ] ∧
    declared_options options =
      [ { opt_type := .NOTMUCH_OPT_KEYWORD, output_var := some .output,
          name := some "output", arg_id := 'o', keywords := output_keywords } ] ∧
    (declared_options options).length = 1 := by
  refine ⟨fun v => ?_, fun v => ?_, fun v => ?_, by decide, by decide, by decide⟩
  · simp only [output_keywords, keyword_lookup]
    split_ifs with h1 h2 <;> simp_all [OUTPUT_THREADS, OUTPUT_MESSAGES]
  · simp only [output_keywords, keyword_lookup]
    split_ifs with h1 h2 <;> simp_all [OUTPUT_THREADS, OUTPUT_MESSAGES]
  · simp only [output_keywords, keyword_lookup]
    split_ifs with h1 h2 <;> simp_all

/-! ## The store is only read -/

theorem foldl_fixed {σ : Type} (step : Event → σ → σ) (l : List Event) (index : σ)
    (h : ∀ e ∈ l, ∀ s, step e s = s) : l.foldl (fun s e => step e s) index = index := by
  induction l generalizing index with
  | nil => rfl
  | cons e es ih =>
    simp only [List.foldl_cons]
    rw [h e (List.mem_cons_self _ _)]
    exact ih index fun e2 he2 => h e2 (List.mem_cons_of_mem _ he2)

theorem steps_leave_index (E : Collaborators) (ctx : Ptr) (argc : Int) (argv : List String)
    (config notmuch : Ptr) (s : String) :
    (steps_to_query_create E ctx argc argv config notmuch s).all Event.leaves_index = true := by
  unfold steps_to_query_create
  by_cases hs : s = "" <;>
    simp [hs, Event.leaves_index, Event.is_engine_op, Event.is_read_only_op]

theorem count_switch_leaves_index (E : Collaborators) (output : Int) (query : Ptr) :
    (count_switch E output query).all Event.leaves_index = true := by
  unfold count_switch
  split_ifs <;> simp [Event.leaves_index, Event.is_engine_op, Event.is_read_only_op]

theorem trace_leaves_index (E : Collaborators) (ctx : Ptr) (argc : Int) (argv : List String) :
    (notmuch_count_command E ctx argc argv).trace.all Event.leaves_index = true := by
  have hp := run_path E ctx argc argv
  generalize notmuch_count_command E ctx argc argv = r at hp ⊢
  cases hp <;>
    simp [List.all_append, steps_leave_index, count_switch_leaves_index, Event.leaves_index,
      Event.is_engine_op, Event.is_read_only_op]

theorem steps_open_count (E : Collaborators) (ctx : Ptr) (argc : Int) (argv : List String)
    (config notmuch : Ptr) (s : String) :
    (steps_to_query_create E ctx argc argv config notmuch s).countP Event.is_database_open
      = 1 := by
  unfold steps_to_query_create
  by_cases hs : s = "" <;> simp [hs, Event.is_database_open, List.countP_cons]

theorem steps_close_count (E : Collaborators) (ctx : Ptr) (argc : Int) (argv : List String)
    (config notmuch : Ptr) (s : String) :
    (steps_to_query_create E ctx argc argv config notmuch s).countP Event.is_database_close
      = 0 := by
  unfold steps_to_query_create
  by_cases hs : s = "" <;> simp [hs, Event.is_database_close, List.countP_cons]

theorem count_switch_open_close_count (E : Collaborators) (output : Int) (query : Ptr) :
    (count_switch E output query).countP Event.is_database_open = 0 ∧
    (count_switch E output query).countP Event.is_database_close = 0 := by
  unfold count_switch
  split_ifs <;> simp [Event.is_database_open, Event.is_database_close, List.countP_cons]

theorem steps_open_args (E : Collaborators) (ctx : Ptr) (argc : Int) (argv : List String)
    (config notmuch : Ptr) (s : String) (path : Option String) (mode : notmuch_database_mode_t)
    (h : Event.notmuch_database_open path mode ∈
      steps_to_query_create E ctx argc argv config notmuch s) :
    mode = .NOTMUCH_DATABASE_MODE_READ_ONLY ∧
      path = E.notmuch_config_get_database_path config := by
  unfold steps_to_query_create at h
  by_cases hs : s = "" <;> simp [hs] at h <;> exact ⟨h.2, h.1⟩

theorem count_switch_open_args (E : Collaborators) (output : Int) (query : Ptr)
    (path : Option String) (mode : notmuch_database_mode_t) :
    Event.notmuch_database_open path mode ∉ count_switch E output query := by
  unfold count_switch
  split_ifs <;> simp

/-- C9: on every run the store is opened at most once, only in read-only mode
and only at the path the configuration supplies; every index-engine operation
of the run is a read-only open, a query creation, one of the two counts, a
query destruction or a close; hence, for any index whose state those
operations (and the steps that are no engine operation) leave unchanged, the
index state after the run equals the state before it. -/
theorem C9_store_is_only_read (E : Collaborators) (ctx : Ptr) (argc : Int)
    (argv : List String) {σ : Type} (step : Event → σ → σ) (index : σ)
    (hread : ∀ e s, e.is_read_only_op = true → step e s = s)
    (hother : ∀ e s, e.is_engine_op = false → step e s = s) :
    (notmuch_count_command E ctx argc argv).trace.countP Event.is_database_open ≤ 1 ∧
    (∀ path mode,
      Event.notmuch_database_open path mode ∈ (notmuch_count_command E ctx argc argv).trace →
      mode = .NOTMUCH_DATABASE_MODE_READ_ONLY ∧
      ∃ config, E.notmuch_config_open ctx none none = some config ∧
        path = E.notmuch_config_get_database_path config) ∧
    (∀ e ∈ (notmuch_count_command E ctx argc argv).trace,
      e.is_engine_op = true → e.is_read_only_op = true) ∧
    (notmuch_count_command E ctx argc argv).trace.foldl (fun s e => step e s) index
      = index := by
  have hall := trace_leaves_index E ctx argc argv
  rw [List.all_eq_true] at hall
  have hengine : ∀ e ∈ (notmuch_count_command E ctx argc argv).trace,
      e.is_engine_op = true → e.is_read_only_op = true := by
    intro e he hop
    have := hall e he
    simpa [Event.leaves_index, hop] using this
  refine ⟨?_, ?_, hengine, ?_⟩
  · have hp := run_path E ctx argc argv
    generalize notmuch_count_command E ctx argc argv = r at hp
    cases hp <;>
      simp [List.countP_append, List.countP_cons, steps_open_count,
        (count_switch_open_close_count E _ _).1, Event.is_database_open]
  · have hp := run_path E ctx argc argv
    generalize notmuch_count_command E ctx argc argv = r at hp
    intro path mode hmem
    cases hp with
    | parse_error h => simp at hmem
    | config_error h hc => simp at hmem
    | open_error config h hc ho =>
      simp at hmem
      exact ⟨hmem.2, config, hc, hmem.1⟩
    | query_string_error config notmuch h hc ho hs =>
      simp at hmem
      exact ⟨hmem.2, config, hc, hmem.1⟩
    | query_create_error config notmuch s h hc ho hs hq =>
      simp only [List.mem_append, List.mem_singleton] at hmem
      rcases hmem with h1 | h1
      · have := steps_open_args E ctx argc argv config notmuch s path mode h1
        exact ⟨this.1, config, hc, this.2⟩
      · cases h1
    | success config notmuch s query h hc ho hs hq =>
      simp only [List.mem_append, List.mem_cons, List.mem_singleton] at hmem
      rcases hmem with (h1 | h1) | h1
      · have := steps_open_args E ctx argc argv config notmuch s path mode h1
        exact ⟨this.1, config, hc, this.2⟩
      · exact absurd h1 (count_switch_open_args E _ query path mode)
      · simp at h1
  · apply foldl_fixed
    intro e he s
    by_cases hop : e.is_engine_op = true
    · exact hread e s (hengine e he hop)
    · exact hother e s (by simpa using hop)

/-- An index that counts the steps that are an engine operation other than a
read-only one: its state changes exactly on a mutating operation. -/
theorem C9_store_is_only_read_witness :
    (∀ (e : Event) (s : Nat), e.is_read_only_op = true → mutation_counter e s = s) ∧
    (∀ (e : Event) (s : Nat), e.is_engine_op = false → mutation_counter e s = s) ∧
    (notmuch_count_command (healthy 5 2) 0 3
        ["count", "--output=threads", "tag:inbox"]).trace.countP Event.is_database_open ≤ 1 ∧
    (notmuch_count_command (healthy 5 2) 0 3
        ["count", "--output=threads", "tag:inbox"]).trace.foldl
      (fun s e => mutation_counter e s) 0 = 0 :=
  have hread : ∀ (e : Event) (s : Nat), e.is_read_only_op = true → mutation_counter e s = s :=
    fun e s h => by simp [mutation_counter, Event.leaves_index, h]
  have hother : ∀ (e : Event) (s : Nat), e.is_engine_op = false → mutation_counter e s = s :=
    fun e s h => by simp [mutation_counter, Event.leaves_index, h]
  have h := C9_store_is_only_read (healthy 5 2) 0 3 ["count", "--output=threads", "tag:inbox"]
    mutation_counter 0 hread hother
  ⟨hread, hother, h.1, h.2.2.2⟩

/-! ## Release of the store -/

/-- The store is closed on the successful path and on no other: the number of
`notmuch_database_close` calls of a run is 1 when it returns 0 and 0 when it
returns 1. -/
theorem close_count_by_return_value (E : Collaborators) (ctx : Ptr) (argc : Int)
    (argv : List String) :
    (notmuch_count_command E ctx argc argv).trace.countP Event.is_database_close =
      if (notmuch_count_command E ctx argc argv).ret = 0 then 1 else 0 := by
  have hp := run_path E ctx argc argv
  generalize notmuch_count_command E ctx argc argv = r at hp ⊢
  cases hp <;>
    simp [List.countP_append, List.countP_cons, steps_close_count,
      (count_switch_open_close_count E _ _).2, Event.is_database_close]

/-- On the successful path the last two steps are the destruction of the query
and then the close of the store that was opened. -/
theorem success_ends_with_destroy_then_close (E : Collaborators) (ctx : Ptr) (argc : Int)
    (argv : List String) (config notmuch query : Ptr) (s : String)
    (hparse : 0 ≤ (E.parse_arguments argc argv options 1).ret)
    (hconfig : E.notmuch_config_open ctx none none = some config)
    (hopen : E.notmuch_database_open (E.notmuch_config_get_database_path config)
      .NOTMUCH_DATABASE_MODE_READ_ONLY = some notmuch)
    (hstring : E.query_string_from_args ctx
      (argc - (E.parse_arguments argc argv options 1).ret)
      (argv.drop (E.parse_arguments argc argv options 1).ret.toNat) = some s)
    (hquery : E.notmuch_query_create notmuch (query_str_of E ctx s) = some query) :
    ∃ before, (notmuch_count_command E ctx argc argv).trace =
      before ++ [Event.notmuch_query_destroy query, Event.notmuch_database_close notmuch] := by
  rw [run_success E ctx argc argv hparse hconfig hopen hstring hquery]
  exact ⟨_, rfl⟩

/-- The store stays open when the query string cannot be built: on every run
in which the store opened and `query_string_from_args` returned NULL, the
command returns 1 having opened the store once and never closed it. -/
theorem store_left_open_without_query_string (E : Collaborators) (ctx : Ptr) (argc : Int)
    (argv : List String) (config notmuch : Ptr)
    (hparse : 0 ≤ (E.parse_arguments argc argv options 1).ret)
    (hconfig : E.notmuch_config_open ctx none none = some config)
    (hopen : E.notmuch_database_open (E.notmuch_config_get_database_path config)
      .NOTMUCH_DATABASE_MODE_READ_ONLY = some notmuch)
    (hstring : E.query_string_from_args ctx
      (argc - (E.parse_arguments argc argv options 1).ret)
      (argv.drop (E.parse_arguments argc argv options 1).ret.toNat) = none) :
    (notmuch_count_command E ctx argc argv).ret = 1 ∧
    (notmuch_count_command E ctx argc argv).trace.countP Event.is_database_open = 1 ∧
    (notmuch_count_command E ctx argc argv).trace.countP Event.is_database_close = 0 := by
  rw [run_query_string_error E ctx argc argv hparse hconfig hopen hstring]
  simp [List.countP_cons, Event.is_database_open, Event.is_database_close]

/-- The store stays open when the query cannot be created: on every run in
which the store opened and `notmuch_query_create` returned NULL, the command
returns 1 having opened the store once and never closed it. -/
theorem store_left_open_without_query (E : Collaborators) (ctx : Ptr) (argc : Int)
    (argv : List String) (config notmuch : Ptr) (s : String)
    (hparse : 0 ≤ (E.parse_arguments argc argv options 1).ret)
    (hconfig : E.notmuch_config_open ctx none none = some config)
    (hopen : E.notmuch_database_open (E.notmuch_config_get_database_path config)
      .NOTMUCH_DATABASE_MODE_READ_ONLY = some notmuch)
    (hstring : E.query_string_from_args ctx
      (argc - (E.parse_arguments argc argv options 1).ret)
      (argv.drop (E.parse_arguments argc argv options 1).ret.toNat) = some s)
    (hquery : E.notmuch_query_create notmuch (query_str_of E ctx s) = none) :
    (notmuch_count_command E ctx argc argv).ret = 1 ∧
    (notmuch_count_command E ctx argc argv).trace.countP Event.is_database_open = 1 ∧
    (notmuch_count_command E ctx argc argv).trace.countP Event.is_database_close = 0 := by
  rw [run_query_create_error E ctx argc argv hparse hconfig hopen hstring hquery]
  simp [List.countP_append, List.countP_cons, steps_open_count, steps_close_count,
    Event.is_database_open, Event.is_database_close]

/-- The spec's failure scenario "pointing the configuration at a nonexistent
store path": the command returns 1 after the failed open and writes nothing to
standard output. -/
theorem store_open_failure_scenario :
    (notmuch_count_command (no_store 5 2) 0 2 ["count", "tag:inbox"]).ret = 1 ∧
    (notmuch_count_command (no_store 5 2) 0 2 ["count", "tag:inbox"]).stdout = "" ∧
    (notmuch_count_command (no_store 5 2) 0 2 ["count", "tag:inbox"]).trace.countP
      Event.is_database_close = 0 := by
  decide

/-- C4 (the code departs from the claim): `count tag:inbox` with a store that
opens and a query builder that returns NULL returns 1 with one
`notmuch_database_open` and no `notmuch_database_close` in its steps, and so
does the same command when `notmuch_query_create` returns NULL; the same
command in the world where nothing fails closes the store once. -/
theorem C4_store_left_open_on_error_returns :
    (notmuch_count_command (no_memory_for_query_string 5 2) 0 2 ["count", "tag:inbox"]).ret = 1 ∧
    (notmuch_count_command (no_memory_for_query_string 5 2) 0 2
      ["count", "tag:inbox"]).trace.countP Event.is_database_open = 1 ∧
    (notmuch_count_command (no_memory_for_query_string 5 2) 0 2
      ["count", "tag:inbox"]).trace.countP Event.is_database_close = 0 ∧
    (notmuch_count_command (no_memory_for_query 5 2) 0 2 ["count", "tag:inbox"]).ret = 1 ∧
    (notmuch_count_command (no_memory_for_query 5 2) 0 2
      ["count", "tag:inbox"]).trace.countP Event.is_database_open = 1 ∧
    (notmuch_count_command (no_memory_for_query 5 2) 0 2
      ["count", "tag:inbox"]).trace.countP Event.is_database_close = 0 ∧
    (notmuch_count_command (healthy 5 2) 0 2
      ["count", "tag:inbox"]).trace.countP Event.is_database_close = 1 := by
  decide

/-! ## The string handed to the engine -/

/-- Whatever reaches `notmuch_query_create` is the string of lines 68-70: the
result `s` of `query_string_from_args` on `argv[opt_index .. argc)` when `s` is
not empty, and the result of `talloc_strdup (ctx, "")` when it is. -/
theorem query_create_argument (E : Collaborators) (ctx : Ptr) (argc : Int)
    (argv : List String) (notmuch : Ptr) (q : Option String)
    (hmem : Event.notmuch_query_create notmuch q ∈
      (notmuch_count_command E ctx argc argv).trace) :
    ∃ s, E.query_string_from_args ctx (argc - (E.parse_arguments argc argv options 1).ret)
        (argv.drop (E.parse_arguments argc argv options 1).ret.toNat) = some s ∧
      q = if s = "" then E.talloc_strdup ctx "" else some s := by
  have hsteps : ∀ config db s, Event.notmuch_query_create notmuch q ∈
      steps_to_query_create E ctx argc argv config db s → q = query_str_of E ctx s := by
    intro config db s h
    unfold steps_to_query_create at h
    by_cases hs : s = "" <;> simp [hs] at h <;> simp [h.2, hs]
  have hswitch : ∀ out query, Event.notmuch_query_create notmuch q ∉
      count_switch E out query := by
    intro out query
    unfold count_switch
    split_ifs <;> simp
  have hp := run_path E ctx argc argv
  generalize notmuch_count_command E ctx argc argv = r at hp hmem
  cases hp with
  | parse_error h => simp at hmem
  | config_error h hc => simp at hmem
  | open_error config h hc ho => simp at hmem
  | query_string_error config db h hc ho hs => simp at hmem
  | query_create_error config db s h hc ho hs hq =>
    simp only [List.mem_append, List.mem_singleton] at hmem
    rcases hmem with h1 | h1
    · exact ⟨s, hs, hsteps config db s h1⟩
    · cases h1
  | success config db s query h hc ho hs hq =>
    simp only [List.mem_append, List.mem_cons, List.mem_singleton] at hmem
    rcases hmem with (h1 | h1) | h1
    · exact ⟨s, hs, hsteps config db s h1⟩
    · exact absurd h1 (hswitch _ query)
    · simp at h1

/-- When the copy of the empty string succeeds, the string handed to
`notmuch_query_create` is character for character the one the query builder
returned. -/
theorem query_create_gets_builder_string (E : Collaborators) (ctx : Ptr) (argc : Int)
    (argv : List String) (notmuch : Ptr) (q : Option String)
    (hdup : E.talloc_strdup ctx "" = some "")
    (hmem : Event.notmuch_query_create notmuch q ∈
      (notmuch_count_command E ctx argc argv).trace) :
    q = E.query_string_from_args ctx (argc - (E.parse_arguments argc argv options 1).ret)
        (argv.drop (E.parse_arguments argc argv options 1).ret.toNat) := by
  obtain ⟨s, hs, hq⟩ := query_create_argument E ctx argc argv notmuch q hmem
  rw [hs, hq]
  by_cases h0 : s = "" <;> simp [h0, hdup]

/-- The query builder the spec describes yields the empty string when there are
no residual tokens. -/
theorem query_string_from_args_nil (argc : Int) : query_string_from_args argc [] = "" := by
  simp [query_string_from_args, String.intercalate]

/-- C8 (the code departs from the claim): `count --output=threads` has no
residual tokens and the query builder returns the empty string; when the
`talloc_strdup` of line 69 returns NULL, what the command hands to
`notmuch_query_create` is NULL, not the empty string. -/
theorem C8_null_handed_to_query_create_when_strdup_fails :
    (no_memory_for_strdup 5 2).query_string_from_args 0
      (2 - ((no_memory_for_strdup 5 2).parse_arguments 2 ["count", "--output=threads"]
        options 1).ret)
      (["count", "--output=threads"].drop
        ((no_memory_for_strdup 5 2).parse_arguments 2 ["count", "--output=threads"]
          options 1).ret.toNat) = some "" ∧
    Event.notmuch_query_create 2 none ∈
      (notmuch_count_command (no_memory_for_strdup 5 2) 0 2
        ["count", "--output=threads"]).trace ∧
    Event.notmuch_query_create 2 (some "") ∉
      (notmuch_count_command (no_memory_for_strdup 5 2) 0 2
        ["count", "--output=threads"]).trace := by
  decide

/-! ## Allocation failures -/

/-- A NULL from `query_string_from_args` is reported and fatal: one line on
standard error, nothing on standard output, no counting call, no call of
`notmuch_query_create`, return value 1. -/
theorem query_string_failure_reported (E : Collaborators) (ctx : Ptr) (argc : Int)
    (argv : List String) (config notmuch : Ptr)
    (hparse : 0 ≤ (E.parse_arguments argc argv options 1).ret)
    (hconfig : E.notmuch_config_open ctx none none = some config)
    (hopen : E.notmuch_database_open (E.notmuch_config_get_database_path config)
      .NOTMUCH_DATABASE_MODE_READ_ONLY = some notmuch)
    (hstring : E.query_string_from_args ctx
      (argc - (E.parse_arguments argc argv options 1).ret)
      (argv.drop (E.parse_arguments argc argv options 1).ret.toNat) = none) :
    (notmuch_count_command E ctx argc argv).ret = 1 ∧
    (notmuch_count_command E ctx argc argv).stderr_writes = ["Out of memory.\n"] ∧
    (notmuch_count_command E ctx argc argv).stdout_writes = [] ∧
    (notmuch_count_command E ctx argc argv).trace.filter Event.is_count = [] ∧
    (∀ db q, Event.notmuch_query_create db q ∉
      (notmuch_count_command E ctx argc argv).trace) := by
  rw [run_query_string_error E ctx argc argv hparse hconfig hopen hstring]
  simp [Run.stderr_writes, Run.stdout_writes, Event.stderr_text, Event.stdout_text,
    Event.is_count, Event.is_count_messages, Event.is_count_threads]

/-- A NULL from `notmuch_query_create` is reported and fatal: one line on
standard error, nothing on standard output, no counting call, return value
1. -/
theorem query_create_failure_reported (E : Collaborators) (ctx : Ptr) (argc : Int)
    (argv : List String) (config notmuch : Ptr) (s : String)
    (hparse : 0 ≤ (E.parse_arguments argc argv options 1).ret)
    (hconfig : E.notmuch_config_open ctx none none = some config)
    (hopen : E.notmuch_database_open (E.notmuch_config_get_database_path config)
      .NOTMUCH_DATABASE_MODE_READ_ONLY = some notmuch)
    (hstring : E.query_string_from_args ctx
      (argc - (E.parse_arguments argc argv options 1).ret)
      (argv.drop (E.parse_arguments argc argv options 1).ret.toNat) = some s)
    (hquery : E.notmuch_query_create notmuch (query_str_of E ctx s) = none) :
    (notmuch_count_command E ctx argc argv).ret = 1 ∧
    (notmuch_count_command E ctx argc argv).stderr_writes = ["Out of memory\n"] ∧
    (notmuch_count_command E ctx argc argv).stdout_writes = [] ∧
    (notmuch_count_command E ctx argc argv).trace.filter Event.is_count = [] := by
  rw [run_query_create_error E ctx argc argv hparse hconfig hopen hstring hquery]
  simp [Run.stderr_writes, Run.stdout_writes, Event.stderr_text, Event.stdout_text,
    stderr_steps, stdout_steps, count_steps, Event.is_count, Event.is_count_messages,
    Event.is_count_threads]

/-- The result of the `talloc_strdup` of line 69 is used unchecked: on every
run in which the query builder returned the empty string and that copy failed,
NULL is handed to `notmuch_query_create`, and when the engine returns a query
for it the command writes nothing to standard error and returns 0. -/
theorem failed_strdup_reaches_query_create (E : Collaborators) (ctx : Ptr) (argc : Int)
    (argv : List String) (config notmuch : Ptr)
    (hparse : 0 ≤ (E.parse_arguments argc argv options 1).ret)
    (hconfig : E.notmuch_config_open ctx none none = some config)
    (hopen : E.notmuch_database_open (E.notmuch_config_get_database_path config)
      .NOTMUCH_DATABASE_MODE_READ_ONLY = some notmuch)
    (hstring : E.query_string_from_args ctx
      (argc - (E.parse_arguments argc argv options 1).ret)
      (argv.drop (E.parse_arguments argc argv options 1).ret.toNat) = some "")
    (hdup : E.talloc_strdup ctx "" = none) :
    Event.notmuch_query_create notmuch none ∈ (notmuch_count_command E ctx argc argv).trace ∧
    (∀ query, E.notmuch_query_create notmuch none = some query →
      (notmuch_count_command E ctx argc argv).ret = 0 ∧
      (notmuch_count_command E ctx argc argv).stderr_writes = []) := by
  have hq0 : query_str_of E ctx "" = none := by simp [query_str_of, hdup]
  constructor
  · cases hq : E.notmuch_query_create notmuch none with
    | none =>
      rw [run_query_create_error E ctx argc argv hparse hconfig hopen hstring (hq0 ▸ hq)]
      simp [steps_to_query_create, hq0]
    | some query =>
      rw [run_success E ctx argc argv hparse hconfig hopen hstring (hq0 ▸ hq)]
      simp [steps_to_query_create, hq0]
  · intro query hq
    rw [run_success E ctx argc argv hparse hconfig hopen hstring (hq0 ▸ hq)]
    have hsw : (count_switch E ((E.parse_arguments argc argv options 1).stored.getD
        OUTPUT_MESSAGES) query).filterMap Event.stderr_text = [] := by
      unfold count_switch
      split_ifs <;> simp [Event.stderr_text]
    simp [Run.stderr_writes, stderr_steps, hsw, Event.stderr_text]

/-- C10 (the code departs from the claim): in `count` without search terms the
query builder returns the empty string and line 69 calls `talloc_strdup`; when
that call returns NULL the command writes nothing to standard error, hands NULL
to `notmuch_query_create`, and, the engine returning a query, goes on to count,
prints the count and returns 0. -/
theorem C10_failed_strdup_is_not_reported :
    (no_memory_for_strdup 5 2).talloc_strdup 0 "" = none ∧
    Event.talloc_strdup 0 "" ∈
      (notmuch_count_command (no_memory_for_strdup 5 2) 0 1 ["count"]).trace ∧
    (notmuch_count_command (no_memory_for_strdup 5 2) 0 1 ["count"]).stderr_writes = [] ∧
    Event.notmuch_query_create 2 none ∈
      (notmuch_count_command (no_memory_for_strdup 5 2) 0 1 ["count"]).trace ∧
    (notmuch_count_command (no_memory_for_strdup 5 2) 0 1 ["count"]).trace.filter
      Event.is_count = [Event.notmuch_query_count_messages 3] ∧
    (notmuch_count_command (no_memory_for_strdup 5 2) 0 1 ["count"]).stdout = "5\n" ∧
    (notmuch_count_command (no_memory_for_strdup 5 2) 0 1 ["count"]).ret = 0 := by
  decide

end NotmuchCount
